import Mathlib

/-!
Verification development for the blog-pipeline repository
(`agents.py` and `utils.py`).

The Python code is shallowly embedded:
* the process environment is an ordered association list of
  string key/value pairs (a faithful model of `os.environ` as a mapping);
* `load_dotenv` loads a dotenv file into the environment without
  overriding keys that are already present (python-dotenv default);
* `getpass` is modelled by a prompt-input string carried in the state
  together with a counter of how many times the prompt was invoked;
* the worker (`Agent`), task (`Task`) and pipeline (`Crew`) descriptors
  of `agents.py` are literal records carrying the source strings.
-/

set_option autoImplicit false
set_option maxRecDepth 100000

namespace Utils

/-- The process environment: an ordered association list, first binding wins
on lookup, update replaces in place (a model of the `os.environ` mapping). -/
abbrev Env := List (String × String)

/-- `os.environ.get k`: value of the first binding of `k`, if any. -/
def lookupEnv : Env → String → Option String
  | [], _ => none
  | (k', v) :: rest, k => if k' = k then some v else lookupEnv rest k

/-- `os.environ[k] = v`: replace the first binding of `k`, or append one. -/
def setEnv : Env → String → String → Env
  | [], k, v => [(k, v)]
  | (k', v') :: rest, k, v =>
      if k' = k then (k, v) :: rest else (k', v') :: setEnv rest k v

/-- First value bound to `k` in a parsed dotenv file. -/
def firstEntry : List (String × String) → String → Option String
  | [], _ => none
  | (k', v) :: rest, k => if k' = k then some v else firstEntry rest k

/-- Load parsed dotenv entries into an environment; an entry is applied only
when its key is absent (python-dotenv `override=False` default). -/
def loadDotenvEntries : List (String × String) → Env → Env
  | [], e => e
  | (k, v) :: rest, e =>
      loadDotenvEntries rest (if lookupEnv e k = none then setEnv e k v else e)

/-- The world `utils.get_openai_api_key` interacts with: the process
environment, the optional parsed `.env` file, the string the interactive
prompt would yield, and how many times the prompt has been invoked. -/
structure PyState where
  env : Env
  dotenvFile : Option (List (String × String))
  promptInput : String
  promptCount : Nat
  deriving DecidableEq

/-- `load_dotenv()`: load the local `.env` file, if present, into the
environment without overriding existing keys. -/
def load_dotenv (s : PyState) : PyState :=
  match s.dotenvFile with
  | none => s
  | some entries => { s with env := loadDotenvEntries entries s.env }

/-- What the dotenv file (if any) would supply for key `k`. -/
def fileLookup (s : PyState) (k : String) : Option String :=
  match s.dotenvFile with
  | none => none
  | some entries => firstEntry entries k

/-- Python truthiness of `api_key`: `if not api_key:` takes the prompt
branch exactly when the value is `None` or the empty string. -/
def truthy : Option String → Bool
  | none => false
  | some v => !(v == "")

/-- `getpass(...)`: yield the prompt input and count the invocation. -/
def getpass (s : PyState) : String × PyState :=
  (s.promptInput, { s with promptCount := s.promptCount + 1 })

/-- Embedding of `utils.get_openai_api_key`: load the dotenv file, read
`OPENAI_API_KEY`, and if it is falsy prompt the user and store the
entered key into the environment. -/
def get_openai_api_key (s : PyState) : String × PyState :=
  let s1 := load_dotenv s
  let api_key := lookupEnv s1.env "OPENAI_API_KEY"
  if truthy api_key then
    (api_key.getD "", s1)
  else
    let (key, s2) := getpass s1
    (key, { s2 with env := setEnv s2.env "OPENAI_API_KEY" key })

/-- Reference algorithm, modelled from the spec: check the environment
variable; if absent, load the local dotenv-style file into the environment
and re-check; if still absent, prompt interactively; cache and return. -/
def spec_get_api_key (s : PyState) : String × PyState :=
  match lookupEnv s.env "OPENAI_API_KEY" with
  | some v => (v, s)
  | none =>
    let s1 := load_dotenv s
    match lookupEnv s1.env "OPENAI_API_KEY" with
    | some v => (v, s1)
    | none =>
      let (key, s2) := getpass s1
      (key, { s2 with env := setEnv s2.env "OPENAI_API_KEY" key })

theorem lookup_set_same (e : Env) (k v : String) :
    lookupEnv (setEnv e k v) k = some v := by
  induction e with
  | nil => simp [setEnv, lookupEnv]
  | cons p rest ih =>
      obtain ⟨k', v'⟩ := p
      by_cases h : k' = k
      · simp [setEnv, lookupEnv, h]
      · simp [setEnv, lookupEnv, h, ih]

theorem lookup_set_other (e : Env) (k v k' : String) (h : k' ≠ k) :
    lookupEnv (setEnv e k v) k' = lookupEnv e k' := by
  have hk : k ≠ k' := Ne.symm h
  induction e with
  | nil => simp [setEnv, lookupEnv, hk]
  | cons p rest ih =>
      obtain ⟨k0, v0⟩ := p
      by_cases h0 : k0 = k
      · subst h0
        simp [setEnv, lookupEnv, hk]
      · simp [setEnv, lookupEnv, h0, ih]

theorem lookup_loadEntries_of_some (entries : List (String × String))
    (e : Env) (k v : String) (h : lookupEnv e k = some v) :
    lookupEnv (loadDotenvEntries entries e) k = some v := by
  induction entries generalizing e with
  | nil => simpa [loadDotenvEntries] using h
  | cons p rest ih =>
      obtain ⟨k0, v0⟩ := p
      by_cases h0 : lookupEnv e k0 = none
      · have hk : k0 ≠ k := by
          intro he; subst he; rw [h0] at h; exact Option.noConfusion h
        have : lookupEnv (setEnv e k0 v0) k = some v := by
          rw [lookup_set_other e k0 v0 k (fun hh => hk (Eq.symm hh))]; exact h
        simpa [loadDotenvEntries, h0] using ih (setEnv e k0 v0) this
      · simpa [loadDotenvEntries, h0] using ih e h

theorem lookup_loadEntries_of_none (entries : List (String × String))
    (e : Env) (k : String) (h : lookupEnv e k = none) :
    lookupEnv (loadDotenvEntries entries e) k = firstEntry entries k := by
  induction entries generalizing e with
  | nil => simpa [loadDotenvEntries, firstEntry] using h
  | cons p rest ih =>
      obtain ⟨k0, v0⟩ := p
      by_cases hk : k0 = k
      · subst hk
        simp only [loadDotenvEntries]
        rw [if_pos h]
        rw [lookup_loadEntries_of_some rest (setEnv e k0 v0) k0 v0
          (lookup_set_same e k0 v0)]
        simp [firstEntry]
      · simp only [loadDotenvEntries]
        by_cases h0 : lookupEnv e k0 = none
        · rw [if_pos h0]
          have hx : lookupEnv (setEnv e k0 v0) k = none := by
            rw [lookup_set_other e k0 v0 k (fun hh => hk (Eq.symm hh))]; exact h
          rw [ih (setEnv e k0 v0) hx]
          simp [firstEntry, hk]
        · rw [if_neg h0]
          rw [ih e h]
          simp [firstEntry, hk]

theorem lookup_load_dotenv_of_some (s : PyState) (k v : String)
    (h : lookupEnv s.env k = some v) :
    lookupEnv (load_dotenv s).env k = some v := by
  rcases hf : s.dotenvFile with _ | entries
  · unfold load_dotenv
    rw [hf]
    exact h
  · unfold load_dotenv
    rw [hf]
    exact lookup_loadEntries_of_some entries s.env k v h

theorem load_dotenv_prompt_fields (s : PyState) :
    (load_dotenv s).promptInput = s.promptInput ∧
    (load_dotenv s).promptCount = s.promptCount ∧
    (load_dotenv s).dotenvFile = s.dotenvFile := by
  rcases hf : s.dotenvFile with _ | entries
  · unfold load_dotenv
    rw [hf]
    exact ⟨rfl, rfl, hf⟩
  · unfold load_dotenv
    rw [hf]
    exact ⟨rfl, rfl, rfl⟩

theorem lookup_load_dotenv_of_none (s : PyState) (k : String)
    (h : lookupEnv s.env k = none) :
    lookupEnv (load_dotenv s).env k = fileLookup s k := by
  rcases hf : s.dotenvFile with _ | entries
  · unfold load_dotenv fileLookup
    rw [hf]
    exact h
  · unfold load_dotenv fileLookup
    rw [hf]
    exact lookup_loadEntries_of_none entries s.env k h

theorem load_dotenv_of_no_file (s : PyState) (h : s.dotenvFile = none) :
    load_dotenv s = s := by
  unfold load_dotenv
  rw [h]

theorem get_key_of_truthy (s : PyState) (v : String) (hv : v ≠ "")
    (h1 : lookupEnv (load_dotenv s).env "OPENAI_API_KEY" = some v) :
    get_openai_api_key s = (v, load_dotenv s) := by
  simp only [get_openai_api_key, h1]
  simp [truthy, hv]

theorem get_key_of_falsy (s : PyState)
    (h1 : truthy (lookupEnv (load_dotenv s).env "OPENAI_API_KEY") = false) :
    get_openai_api_key s =
      ((load_dotenv s).promptInput,
       { env := setEnv (load_dotenv s).env "OPENAI_API_KEY" (load_dotenv s).promptInput,
         dotenvFile := (load_dotenv s).dotenvFile,
         promptInput := (load_dotenv s).promptInput,
         promptCount := (load_dotenv s).promptCount + 1 }) := by
  simp only [get_openai_api_key, getpass, h1]
  rfl

/-- C2: if `OPENAI_API_KEY` is set to a non-empty value `v` in the
environment when `get_openai_api_key` is called, the function returns `v`
and the interactive prompt is never invoked. -/
theorem env_key_returned_without_prompt (s : PyState) (v : String)
    (hv : v ≠ "") (h : lookupEnv s.env "OPENAI_API_KEY" = some v) :
    (get_openai_api_key s).1 = v ∧
    (get_openai_api_key s).2.promptCount = s.promptCount := by
  have h1 := lookup_load_dotenv_of_some s "OPENAI_API_KEY" v h
  rw [get_key_of_truthy s v hv h1]
  exact ⟨rfl, (load_dotenv_prompt_fields s).2.1⟩

/-- C2 witness: a concrete state with the key set in the environment. -/
theorem env_key_returned_without_prompt_witness :
    (("sk-test" : String) ≠ "" ∧
      lookupEnv [("OPENAI_API_KEY", "sk-test")] "OPENAI_API_KEY" = some "sk-test") ∧
    ((get_openai_api_key ⟨[("OPENAI_API_KEY", "sk-test")], none, "typed", 0⟩).1 = "sk-test" ∧
      (get_openai_api_key ⟨[("OPENAI_API_KEY", "sk-test")], none, "typed", 0⟩).2.promptCount =
        (⟨[("OPENAI_API_KEY", "sk-test")], none, "typed", 0⟩ : PyState).promptCount) :=
  ⟨⟨by decide, by decide⟩,
    env_key_returned_without_prompt ⟨[("OPENAI_API_KEY", "sk-test")], none, "typed", 0⟩
      "sk-test" (by decide) (by decide)⟩

/-- C9: if `OPENAI_API_KEY` is set to the empty string (and the dotenv file
supplies no non-empty value for it), the key is treated as absent: the
prompt is invoked and its input is returned, not the empty string. -/
theorem empty_env_key_prompts (s : PyState)
    (h : lookupEnv s.env "OPENAI_API_KEY" = some "")
    (_hf : ∀ w, fileLookup s "OPENAI_API_KEY" = some w → w = "") :
    (get_openai_api_key s).1 = s.promptInput ∧
    (get_openai_api_key s).2.promptCount = s.promptCount + 1 := by
  have h1 := lookup_load_dotenv_of_some s "OPENAI_API_KEY" "" h
  have hfalse : truthy (lookupEnv (load_dotenv s).env "OPENAI_API_KEY") = false := by
    rw [h1]; rfl
  rw [get_key_of_falsy s hfalse]
  refine ⟨(load_dotenv_prompt_fields s).1, ?_⟩
  rw [(load_dotenv_prompt_fields s).2.1]

/-- C9 witness: the key set to the empty string, no dotenv file. -/
theorem empty_env_key_prompts_witness :
    (lookupEnv [("OPENAI_API_KEY", "")] "OPENAI_API_KEY" = some "" ∧
      (∀ w, fileLookup ⟨[("OPENAI_API_KEY", "")], none, "typed", 0⟩ "OPENAI_API_KEY" = some w →
        w = "")) ∧
    ((get_openai_api_key ⟨[("OPENAI_API_KEY", "")], none, "typed", 0⟩).1 = "typed" ∧
      (get_openai_api_key ⟨[("OPENAI_API_KEY", "")], none, "typed", 0⟩).2.promptCount = 0 + 1) :=
  ⟨⟨by decide, by decide⟩,
    empty_env_key_prompts ⟨[("OPENAI_API_KEY", "")], none, "typed", 0⟩
      (by decide) (by decide)⟩

/-- C4: if the key is absent both from the environment and from the dotenv
file, the prompt is invoked exactly once, its input is returned, and that
input is written into the environment under `OPENAI_API_KEY`. -/
theorem prompt_when_both_absent (s : PyState)
    (h : lookupEnv s.env "OPENAI_API_KEY" = none)
    (hf : fileLookup s "OPENAI_API_KEY" = none) :
    (get_openai_api_key s).1 = s.promptInput ∧
    (get_openai_api_key s).2.promptCount = s.promptCount + 1 ∧
    lookupEnv (get_openai_api_key s).2.env "OPENAI_API_KEY" = some s.promptInput := by
  have h1 : lookupEnv (load_dotenv s).env "OPENAI_API_KEY" = none := by
    rw [lookup_load_dotenv_of_none s "OPENAI_API_KEY" h]; exact hf
  have hfalse : truthy (lookupEnv (load_dotenv s).env "OPENAI_API_KEY") = false := by
    rw [h1]; rfl
  rw [get_key_of_falsy s hfalse]
  obtain ⟨hp, hc, _⟩ := load_dotenv_prompt_fields s
  refine ⟨hp, by rw [hc], ?_⟩
  rw [lookup_set_same, hp]

/-- C4 witness: empty environment and an unrelated dotenv file. -/
theorem prompt_when_both_absent_witness :
    (lookupEnv ([] : Env) "OPENAI_API_KEY" = none ∧
      fileLookup ⟨[], some [("OTHER", "x")], "typed", 0⟩ "OPENAI_API_KEY" = none) ∧
    ((get_openai_api_key ⟨[], some [("OTHER", "x")], "typed", 0⟩).1 = "typed" ∧
      (get_openai_api_key ⟨[], some [("OTHER", "x")], "typed", 0⟩).2.promptCount = 0 + 1 ∧
      lookupEnv (get_openai_api_key ⟨[], some [("OTHER", "x")], "typed", 0⟩).2.env
        "OPENAI_API_KEY" = some "typed") :=
  ⟨⟨by decide, by decide⟩,
    prompt_when_both_absent ⟨[], some [("OTHER", "x")], "typed", 0⟩ (by decide) (by decide)⟩

/-- C3 counterexample: the key is absent from the environment but present
in the dotenv file with the empty-string value. The claim says the file
value is returned without prompting; in fact the empty value is falsy, so
the function prompts and returns the prompt input instead. -/
theorem dotenv_empty_value_prompts :
    ¬((get_openai_api_key ⟨[], some [("OPENAI_API_KEY", "")], "typed", 0⟩).1 = "" ∧
      (get_openai_api_key ⟨[], some [("OPENAI_API_KEY", "")], "typed", 0⟩).2.promptCount = 0) := by
  decide

/-- C3 amended: if the key is absent from the environment but the dotenv
file supplies a NON-EMPTY value `v` for it, `get_openai_api_key` returns
`v` without prompting, and afterwards the environment maps
`OPENAI_API_KEY` to `v`. -/
theorem dotenv_nonempty_value_returned (s : PyState) (v : String) (hv : v ≠ "")
    (h : lookupEnv s.env "OPENAI_API_KEY" = none)
    (hf : fileLookup s "OPENAI_API_KEY" = some v) :
    (get_openai_api_key s).1 = v ∧
    (get_openai_api_key s).2.promptCount = s.promptCount ∧
    lookupEnv (get_openai_api_key s).2.env "OPENAI_API_KEY" = some v := by
  have h1 : lookupEnv (load_dotenv s).env "OPENAI_API_KEY" = some v := by
    rw [lookup_load_dotenv_of_none s "OPENAI_API_KEY" h]; exact hf
  rw [get_key_of_truthy s v hv h1]
  exact ⟨rfl, (load_dotenv_prompt_fields s).2.1, h1⟩

/-- C3 amended witness: dotenv file supplying a non-empty key. -/
theorem dotenv_nonempty_value_returned_witness :
    (("sk-file" : String) ≠ "" ∧
      lookupEnv ([] : Env) "OPENAI_API_KEY" = none ∧
      fileLookup ⟨[], some [("OPENAI_API_KEY", "sk-file")], "typed", 0⟩
        "OPENAI_API_KEY" = some "sk-file") ∧
    ((get_openai_api_key ⟨[], some [("OPENAI_API_KEY", "sk-file")], "typed", 0⟩).1 = "sk-file" ∧
      (get_openai_api_key ⟨[], some [("OPENAI_API_KEY", "sk-file")], "typed", 0⟩).2.promptCount = 0 ∧
      lookupEnv (get_openai_api_key
        ⟨[], some [("OPENAI_API_KEY", "sk-file")], "typed", 0⟩).2.env
        "OPENAI_API_KEY" = some "sk-file") :=
  ⟨⟨by decide, by decide, by decide⟩,
    dotenv_nonempty_value_returned ⟨[], some [("OPENAI_API_KEY", "sk-file")], "typed", 0⟩
      "sk-file" (by decide) (by decide) (by decide)⟩

/-- C10: when the environment maps `OPENAI_API_KEY` to a non-empty value
and there is no local dotenv file, the call leaves the entire process
environment unchanged. -/
theorem env_unchanged_when_key_set (s : PyState) (v : String) (hv : v ≠ "")
    (h : lookupEnv s.env "OPENAI_API_KEY" = some v)
    (hfile : s.dotenvFile = none) :
    (get_openai_api_key s).2.env = s.env := by
  have h1 : lookupEnv (load_dotenv s).env "OPENAI_API_KEY" = some v :=
    lookup_load_dotenv_of_some s "OPENAI_API_KEY" v h
  rw [get_key_of_truthy s v hv h1, load_dotenv_of_no_file s hfile]

/-- C10 witness: two-variable environment, key set, no dotenv file. -/
theorem env_unchanged_when_key_set_witness :
    (("sk-test" : String) ≠ "" ∧
      lookupEnv [("HOME", "/root"), ("OPENAI_API_KEY", "sk-test")]
        "OPENAI_API_KEY" = some "sk-test" ∧
      (⟨[("HOME", "/root"), ("OPENAI_API_KEY", "sk-test")], none, "typed", 0⟩ :
        PyState).dotenvFile = none) ∧
    (get_openai_api_key
      ⟨[("HOME", "/root"), ("OPENAI_API_KEY", "sk-test")], none, "typed", 0⟩).2.env =
      [("HOME", "/root"), ("OPENAI_API_KEY", "sk-test")] :=
  ⟨⟨by decide, by decide, by decide⟩,
    env_unchanged_when_key_set
      ⟨[("HOME", "/root"), ("OPENAI_API_KEY", "sk-test")], none, "typed", 0⟩
      "sk-test" (by decide) (by decide) (by decide)⟩

theorem spec_of_env_some (s : PyState) (v : String)
    (h : lookupEnv s.env "OPENAI_API_KEY" = some v) :
    spec_get_api_key s = (v, s) := by
  unfold spec_get_api_key
  rw [h]

theorem spec_of_env_none_file (s : PyState) (v : String)
    (h : lookupEnv s.env "OPENAI_API_KEY" = none)
    (h1 : lookupEnv (load_dotenv s).env "OPENAI_API_KEY" = some v) :
    spec_get_api_key s = (v, load_dotenv s) := by
  unfold spec_get_api_key
  simp only [h, h1]

theorem spec_of_both_none (s : PyState)
    (h : lookupEnv s.env "OPENAI_API_KEY" = none)
    (h1 : lookupEnv (load_dotenv s).env "OPENAI_API_KEY" = none) :
    spec_get_api_key s =
      ((load_dotenv s).promptInput,
       { env := setEnv (load_dotenv s).env "OPENAI_API_KEY" (load_dotenv s).promptInput,
         dotenvFile := (load_dotenv s).dotenvFile,
         promptInput := (load_dotenv s).promptInput,
         promptCount := (load_dotenv s).promptCount + 1 }) := by
  unfold spec_get_api_key getpass
  simp only [h, h1]

/-- C5 counterexample: with `OPENAI_API_KEY` set to the empty string, the
code treats the key as falsy and prompts (returning the prompt input and
storing it), while the spec's reference algorithm finds the variable
present and returns the empty string with the environment untouched; the
two disagree on both the return value and the resulting environment. -/
theorem code_spec_divergence :
    ¬((get_openai_api_key ⟨[("OPENAI_API_KEY", "")], none, "typed", 0⟩).1 =
        (spec_get_api_key ⟨[("OPENAI_API_KEY", "")], none, "typed", 0⟩).1 ∧
      (get_openai_api_key ⟨[("OPENAI_API_KEY", "")], none, "typed", 0⟩).2.env =
        (spec_get_api_key ⟨[("OPENAI_API_KEY", "")], none, "typed", 0⟩).2.env) := by
  decide

/-- C5 amended: provided neither the environment nor the dotenv file binds
`OPENAI_API_KEY` to the empty string, the code agrees with the spec's
reference algorithm on the return value and on the final value of
`OPENAI_API_KEY`; the rest of the environment may still differ, because the
code loads the dotenv file even when the variable is already set. -/
theorem code_matches_spec_on_key (s : PyState)
    (hEnv : lookupEnv s.env "OPENAI_API_KEY" ≠ some "")
    (hFile : fileLookup s "OPENAI_API_KEY" ≠ some "") :
    (get_openai_api_key s).1 = (spec_get_api_key s).1 ∧
    lookupEnv (get_openai_api_key s).2.env "OPENAI_API_KEY" =
      lookupEnv (spec_get_api_key s).2.env "OPENAI_API_KEY" := by
  rcases h : lookupEnv s.env "OPENAI_API_KEY" with _ | v
  · have h1 := lookup_load_dotenv_of_none s "OPENAI_API_KEY" h
    rcases hw : fileLookup s "OPENAI_API_KEY" with _ | w
    · rw [hw] at h1
      have hfalse : truthy (lookupEnv (load_dotenv s).env "OPENAI_API_KEY") = false := by
        rw [h1]; rfl
      rw [get_key_of_falsy s hfalse, spec_of_both_none s h h1]
      exact ⟨rfl, rfl⟩
    · have hwne : w ≠ "" := fun hww => hFile (by rw [hw, hww])
      rw [hw] at h1
      rw [get_key_of_truthy s w hwne h1, spec_of_env_none_file s w h h1]
      exact ⟨rfl, rfl⟩
  · have hvne : v ≠ "" := fun hvv => hEnv (by rw [h, hvv])
    have h1 := lookup_load_dotenv_of_some s "OPENAI_API_KEY" v h
    rw [get_key_of_truthy s v hvne h1, spec_of_env_some s v h]
    exact ⟨rfl, by rw [h1, h]⟩

/-- C5 amended witness: key set in the environment, dotenv file holding an
unrelated variable. -/
theorem code_matches_spec_on_key_witness :
    (lookupEnv [("OPENAI_API_KEY", "sk-test")] "OPENAI_API_KEY" ≠ some "" ∧
      fileLookup ⟨[("OPENAI_API_KEY", "sk-test")], some [("FOO", "bar")], "typed", 0⟩
        "OPENAI_API_KEY" ≠ some "") ∧
    ((get_openai_api_key
        ⟨[("OPENAI_API_KEY", "sk-test")], some [("FOO", "bar")], "typed", 0⟩).1 =
      (spec_get_api_key
        ⟨[("OPENAI_API_KEY", "sk-test")], some [("FOO", "bar")], "typed", 0⟩).1 ∧
      lookupEnv (get_openai_api_key
        ⟨[("OPENAI_API_KEY", "sk-test")], some [("FOO", "bar")], "typed", 0⟩).2.env
        "OPENAI_API_KEY" =
      lookupEnv (spec_get_api_key
        ⟨[("OPENAI_API_KEY", "sk-test")], some [("FOO", "bar")], "typed", 0⟩).2.env
        "OPENAI_API_KEY") :=
  ⟨⟨by decide, by decide⟩,
    code_matches_spec_on_key
      ⟨[("OPENAI_API_KEY", "sk-test")], some [("FOO", "bar")], "typed", 0⟩
      (by decide) (by decide)⟩

end Utils

namespace Agents

/-- Worker descriptor built by the `Agent(...)` constructor calls. -/
structure Agent where
  role : String
  goal : String
  backstory : String
  allow_delegation : Bool
  verbose : Bool
  deriving DecidableEq

/-- Task descriptor built by the `Task(...)` constructor calls; `context`
is the list of upstream tasks whose output feeds this task (empty when the
`context` argument is omitted). -/
inductive Task where
  | mk (name : String) (description : String) (expected_output : String)
      (agent : Agent) (context : List Task)

def Task.name : Task → String
  | .mk n _ _ _ _ => n

def Task.description : Task → String
  | .mk _ d _ _ _ => d

def Task.expected_output : Task → String
  | .mk _ _ e _ _ => e

def Task.agent : Task → Agent
  | .mk _ _ _ a _ => a

def Task.context : Task → List Task
  | .mk _ _ _ _ c => c

mutual

/-- All tasks reachable through `context` edges: the transitive upstream
dependency set of a task. -/
def Task.allUpstream : Task → List Task
  | .mk _ _ _ _ ctx => ctx ++ allUpstreamList ctx

def allUpstreamList : List Task → List Task
  | [] => []
  | t :: ts => Task.allUpstream t ++ allUpstreamList ts

end

/-- The `planner` agent. -/
def planner : Agent :=
  { role := "Blog content planner"
    goal := "Plan engaging and factually accurate content on {topic} for a compelling story-telling through blog contents"
    backstory := "You are working on planning a blog article "
      ++ "about the topic: {topic}. "
      ++ "You collect information, organize it in a well structured format that helps audience to consume the information easily and audience learn something "
      ++ "and make informed decisions. "
      ++ "Your work is the basis for the content writer to write an article / blog post on this topic"
    allow_delegation := false
    verbose := true }

/-- The `writer` agent. -/
def writer : Agent :=
  { role := "Blog content writer"
    goal := "Write insightful and factually accurate, opinion piece, in a compelling story-telling format about the {topic}."
    backstory := "You are working on writing "
      ++ "a new opinion piece about the topic: {topic}. "
      ++ "You base your writing on the work of "
      ++ "the Content Planner, who provides an outline "
      ++ "and relevant context about the topic. "
      ++ "You follow the main objectives and direction of the outline, "
      ++ "as provided by the Content Planner. "
      ++ "You also provide objective and impartial insights "
      ++ "and back them up with the information provided by the Content Planner. "
      ++ "When your statements are opinions, as opposed to objective statements, "
      ++ "make that clear to the reader."
    allow_delegation := false
    verbose := true }

/-- The `editor` agent. -/
def editor : Agent :=
  { role := "Blog content editor"
    goal := "Edit the blog content for clarity, coherence, grammar, and factual accuracy. Ensure the content flows well and is engaging for the target audience."
    backstory := "You are working on editing a blog article about the topic: {topic}."
    allow_delegation := false
    verbose := true }

/-- The `plan` task (no `context` argument: no upstream dependencies). -/
def plan : Task :=
  .mk "Plan the blog content"
    ("Create a detailed outline for a blog article on the topic: {topic}. with a call to action"
      ++ "Priortize the latest trends, key players and noteworthy news on {topic}."
      ++ "Idenitfy and address the audience pain points and hook them on {topic}."
      ++ "include SEO keywords and relevant data or sources.")
    ("A comprehensive content plan document with an outline, audience analysis,."
      ++ "SEO keywords, and resources")
    planner
    []

/-- The `write` task, with `context=[plan]`. -/
def write : Task :=
  .mk "Write the blog content"
    "Write the blog content based on the outline created in the planning phase."
    "A comprehensive blog article based on the plan provided"
    writer
    [plan]

/-- The `edit` task, with `context=[write]`. -/
def edit : Task :=
  .mk "Edit the blog content"
    "Edit the blog content for clarity, coherence, grammar, and factual accuracy."
    "A polished and refined blog article ready for publication."
    editor
    [write]

/-- Pipeline descriptor built by the `Crew(...)` constructor call. -/
structure Crew where
  agents : List Agent
  tasks : List Task
  verbose : Bool

/-- The `crew` pipeline: all three agents and all three tasks, in order. -/
def crew : Crew :=
  { agents := [planner, writer, editor]
    tasks := [plan, write, edit]
    verbose := true }

/-- A `crew.kickoff(inputs=...)` submission: the pipeline handed to the
execution engine together with the runtime inputs mapping. -/
structure KickoffCall where
  pipeline : Crew
  inputs : List (String × String)

/-- The submission `crew.kickoff(inputs={"topic": topic})`, parametrised by
the topic string supplied in the inputs mapping. -/
def kickoff (topic : String) : KickoffCall :=
  { pipeline := crew, inputs := [("topic", topic)] }

/-- The actual call made by the script, with its hard-coded topic. -/
def result : KickoffCall :=
  kickoff "AI Engineering and AI-first Engineering approach"

/-- `p` occurs at the head of `s` (character-list prefix test). -/
def headMatches : List Char → List Char → Bool
  | _, [] => true
  | [], _ :: _ => false
  | c :: cs, p :: ps => c == p && headMatches cs ps

/-- Number of positions of `s` at which `pat` occurs. -/
def countOccAux (pat : List Char) : List Char → Nat
  | [] => 0
  | c :: rest => (if headMatches (c :: rest) pat then 1 else 0) + countOccAux pat rest

/-- Number of occurrences of the substring `pat` in `s`. -/
def countOcc (s pat : String) : Nat :=
  countOccAux pat.data s.data

/-- Number of `{topic}` substitution placeholders in a template string. -/
def placeholderCount (s : String) : Nat :=
  countOcc s "{topic}"

/-- The only error a local branch raises: the `ImportError` thrown by the
fallback `get_openai_api_key` stub in `agents.py`. -/
inductive PyError where
  | importError (msg : String)
  deriving DecidableEq

/-- The fallback `get_openai_api_key` defined in the `except ImportError`
branch of `agents.py`: it unconditionally raises an `ImportError`. -/
def fallback_get_openai_api_key : Except PyError String :=
  .error (.importError
    "utils.py with get_openai_api_key() not found. Please add it to your project.")

/-- The `try import / except ImportError` wiring of `agents.py`: when the
`utils` module imports, the real resolver runs on the process state;
otherwise the fallback stub runs and raises. -/
def resolve_credential (utilsImported : Bool) (s : Utils.PyState) :
    Except PyError (String × Utils.PyState) :=
  if utilsImported then
    .ok (Utils.get_openai_api_key s)
  else
    match fallback_get_openai_api_key with
    | .ok v => .ok (v, s)
    | .error e => .error e

theorem write_ne_plan : write ≠ plan := by
  intro h
  exact absurd (congrArg Task.name h) (by decide)

theorem edit_ne_write : edit ≠ write := by
  intro h
  exact absurd (congrArg Task.name h) (by decide)

theorem edit_ne_plan : edit ≠ plan := by
  intro h
  exact absurd (congrArg Task.name h) (by decide)

theorem plan_allUpstream : plan.allUpstream = [] := by
  simp [plan, Task.allUpstream, allUpstreamList]

theorem write_allUpstream : write.allUpstream = [plan] := by
  simp [write, plan, Task.allUpstream, allUpstreamList]

theorem edit_allUpstream : edit.allUpstream = [write, plan] := by
  simp [edit, write, plan, Task.allUpstream, allUpstreamList]

/-- C1: the dependency chain is strictly linear — `plan` has no upstream,
`write`'s upstream set is exactly `[plan]`, `edit`'s is exactly `[write]`,
and no task occurs in its own transitive upstream set (no self-dependency,
no cycle). -/
theorem task_chain_linear :
    plan.context = [] ∧ write.context = [plan] ∧ edit.context = [write] ∧
    plan ∉ plan.allUpstream ∧ write ∉ write.allUpstream ∧
    edit ∉ edit.allUpstream := by
  refine ⟨rfl, rfl, rfl, ?_, ?_, ?_⟩
  · rw [plan_allUpstream]
    simp
  · rw [write_allUpstream]
    simp [write_ne_plan]
  · rw [edit_allUpstream]
    simp [edit_ne_write, edit_ne_plan]

/-- C6 counterexample: the editor worker descriptor violates the claim —
its delegation flag is false as claimed, but its goal string contains no
`{topic}` substitution placeholder at all, not exactly one. -/
theorem editor_goal_no_placeholder :
    ¬(editor.allow_delegation = false ∧ placeholderCount editor.goal = 1) := by
  decide

/-- C6 amended: all three worker descriptors have delegation disabled; the
planner and writer goals contain exactly one `{topic}` placeholder, but the
editor goal contains none. -/
theorem worker_descriptor_fields :
    planner.allow_delegation = false ∧ writer.allow_delegation = false ∧
    editor.allow_delegation = false ∧
    placeholderCount planner.goal = 1 ∧ placeholderCount writer.goal = 1 ∧
    placeholderCount editor.goal = 0 := by
  decide

/-- C7: the only locally raised error is the configuration `ImportError`
from the fallback resolver stub; when the helper module does import, the
local code yields a value and raises nothing. -/
theorem fallback_import_error_only :
    (∀ s : Utils.PyState, resolve_credential false s =
      .error (.importError
        "utils.py with get_openai_api_key() not found. Please add it to your project.")) ∧
    (∀ s : Utils.PyState, ∃ r, resolve_credential true s = .ok r) := by
  constructor
  · intro s
    rfl
  · intro s
    exact ⟨Utils.get_openai_api_key s, rfl⟩

/-- C8: for every topic, the submitted pipeline consists of exactly the
three workers `[planner, writer, editor]` and exactly the three tasks
`[plan, write, edit]`, in that order, and the submitted pipeline does not
depend on the topic value. -/
theorem pipeline_contents_topic_independent :
    ∀ topic : String,
      (kickoff topic).pipeline.agents = [planner, writer, editor] ∧
      (kickoff topic).pipeline.tasks = [plan, write, edit] ∧
      ∀ topic2 : String, (kickoff topic).pipeline = (kickoff topic2).pipeline := by
  intro topic
  exact ⟨rfl, rfl, fun _ => rfl⟩

end Agents
